import Mathlib

/-!
Verification of the daemon/client IPC subsystem of the Satty screenshot
annotation tool: message protocol (`src/daemon/protocol.rs`), path security
validator (`src/daemon/security.rs`), socket client (`src/daemon/socket.rs`),
per-window configuration derivation (`src/daemon/request_config.rs`) and the
GUI-side request drain loop of `run_daemon` (`src/main.rs`).

The Rust code is shallowly embedded: pure functions become Lean functions,
fallible functions return `Except`, the filesystem and the GUI toolkit are
passed in as explicit oracle parameters, wire bytes are `List Nat` (each
entry < 256) and the JSON documents produced and consumed by serde are
modelled at the level of the (flat) JSON object each message denotes,
together with an explicit renderer to UTF-8 bytes for size accounting.
-/

deriving instance DecidableEq for Except

namespace Satty

/-- Maximum message size in bytes (16 MiB), `MAX_MESSAGE_SIZE` in protocol.rs. -/
def MAX_MESSAGE_SIZE : Nat := 16 * 1024 * 1024

/-- Length prefix size in bytes, `LENGTH_PREFIX_SIZE` in protocol.rs. -/
def LENGTH_PREFIX_SIZE : Nat := 4

/-- Protocol error type, `ProtocolError` in protocol.rs.  `InvalidJson` and
`Io` carry an inner error in Rust; the payload is elided in the model. -/
inductive ProtocolError where
  | MessageTooLarge (n : Nat)
  | InvalidJson
  | Io
  | MissingField (name : String)
  | ConnectionClosed
deriving DecidableEq

/-- Display string of a protocol error, per the thiserror `#[error(...)]`
attributes in protocol.rs (inner payloads of `InvalidJson`/`Io` elided). -/
def ProtocolError.toMessage : ProtocolError → String
  | .MessageTooLarge n =>
      "Message too large: " ++ toString n ++ " bytes (max " ++ toString MAX_MESSAGE_SIZE ++ ")"
  | .InvalidJson => "Invalid JSON"
  | .Io => "IO error"
  | .MissingField name => "Missing required field: " ++ name
  | .ConnectionClosed => "Connection closed"

/-- Request from client to daemon, `DaemonRequest` in protocol.rs.  The Rust
field `annotation_size_factor : Option<f32>` is named `size_factor` here; its
JSON key below is the original one.  `f32` payloads are carried as `Float`;
no claim depends on float arithmetic, only on the values being passed
through unchanged. -/
structure DaemonRequest where
  filename : String
  output_filename : Option String := none
  copy_command : Option String := none
  initial_tool : Option String := none
  fullscreen : Option Bool := none
  early_exit : Option Bool := none
  corner_roundness : Option Float := none
  size_factor : Option Float := none
  default_hide_toolbars : Option Bool := none
  no_window_decoration : Option Bool := none
  stdin_data : Option String := none

/-- Constructor with only the required filename, `DaemonRequest::new`. -/
def DaemonRequest.new (filename : String) : DaemonRequest :=
  { filename := filename }

/-- Semantic validation of a request, `DaemonRequest::validate`. -/
def DaemonRequest.validate (r : DaemonRequest) : Except ProtocolError Unit :=
  if r.filename = "" then
    .error (.MissingField "filename")
  else if r.filename = "-" ∧ r.stdin_data = none then
    .error (.MissingField "stdin_data (required when filename is '-')")
  else
    .ok ()

/-- Response status, `ResponseStatus` in protocol.rs. -/
inductive ResponseStatus where
  | Ok
  | Error
deriving DecidableEq

/-- Response from daemon to client, `DaemonResponse` in protocol.rs
(`window_id` is `u64` in Rust; every `u64` value is a `Nat`). -/
structure DaemonResponse where
  status : ResponseStatus
  window_id : Option Nat := none
  message : Option String := none
deriving DecidableEq

/-- Successful response, `DaemonResponse::ok`. -/
def DaemonResponse.ok (window_id : Nat) : DaemonResponse :=
  { status := .Ok, window_id := some window_id, message := none }

/-- Error response, `DaemonResponse::error`. -/
def DaemonResponse.error (message : String) : DaemonResponse :=
  { status := .Error, window_id := none, message := some message }

/-- Scalar JSON value.  The protocol messages of protocol.rs are flat JSON
objects whose members are strings, booleans and numbers, so the model of the
serde layer uses flat objects of scalar values.  serde_json distinguishes
unsigned-integer numbers (`u64` fields) from floating-point numbers (`f32`
fields); the two constructors mirror that. -/
inductive JsonVal where
  | str (s : String)
  | bool (b : Bool)
  | nat (n : Nat)
  | num (x : Float)

/-- A flat JSON document: an ordered list of members.  This is the model of
the parsed form of a serde_json message body. -/
abbrev JsonObj := List (String × JsonVal)

/-- An optional struct field under `#[serde(skip_serializing_if = "Option::is_none")]`:
absent fields contribute no member to the serialized object. -/
def optField (key : String) (enc : α → JsonVal) : Option α → JsonObj
  | none => []
  | some v => [(key, enc v)]

/-- Members of the serde serialization of a `DaemonRequest`, in struct field
order, from the `#[derive(Serialize)]` on `DaemonRequest` in protocol.rs. -/
def reqFields (r : DaemonRequest) : JsonObj :=
  ("filename", .str r.filename)
    :: optField "output_filename" .str r.output_filename
    ++ optField "copy_command" .str r.copy_command
    ++ optField "initial_tool" .str r.initial_tool
    ++ optField "fullscreen" .bool r.fullscreen
    ++ optField "early_exit" .bool r.early_exit
    ++ optField "corner_roundness" .num r.corner_roundness
    ++ optField "annotation_size_factor" .num r.size_factor
    ++ optField "default_hide_toolbars" .bool r.default_hide_toolbars
    ++ optField "no_window_decoration" .bool r.no_window_decoration
    ++ optField "stdin_data" .str r.stdin_data

/-- Serde serialization of a request to its JSON document. -/
def DaemonRequest.toJson (r : DaemonRequest) : JsonObj := reqFields r

/-- Wire name of a response status, per `#[serde(rename_all = "snake_case")]`
on `ResponseStatus` in protocol.rs. -/
def ResponseStatus.wireName : ResponseStatus → String
  | .Ok => "ok"
  | .Error => "error"

/-- Members of the serde serialization of a `DaemonResponse`, in struct field
order, from the `#[derive(Serialize)]` on `DaemonResponse` in protocol.rs. -/
def respFields (p : DaemonResponse) : JsonObj :=
  ("status", .str p.status.wireName)
    :: optField "window_id" .nat p.window_id
    ++ optField "message" .str p.message

/-- Serde serialization of a response to its JSON document. -/
def DaemonResponse.toJson (p : DaemonResponse) : JsonObj := respFields p

/-- First member of an object with the given key, if any (the model of serde
field lookup during deserialization). -/
def jsonLookup (fields : JsonObj) (key : String) : Option JsonVal :=
  match fields with
  | [] => none
  | (k, v) :: rest => if k = key then some v else jsonLookup rest key

/-- Deserialize a JSON value as a string; a value of any other shape is a
serde type error, surfaced as `InvalidJson` through `#[from] serde_json::Error`. -/
def JsonVal.asString : JsonVal → Except ProtocolError String
  | .str s => .ok s
  | _ => .error .InvalidJson

/-- Deserialize a JSON value as a boolean. -/
def JsonVal.asBool : JsonVal → Except ProtocolError Bool
  | .bool b => .ok b
  | _ => .error .InvalidJson

/-- Deserialize a JSON value as an `f32`: serde accepts both floating-point
and integer JSON numbers for a float field. -/
def JsonVal.asFloat : JsonVal → Except ProtocolError Float
  | .num x => .ok x
  | .nat n => .ok (Float.ofNat n)
  | _ => .error .InvalidJson

/-- Deserialize a JSON value as a `u64`. -/
def JsonVal.asNat : JsonVal → Except ProtocolError Nat
  | .nat n => .ok n
  | _ => .error .InvalidJson

/-- Deserialize an optional member: an absent member yields `none` (serde
`Option` fields default to `None`). -/
def decodeOptJson (o : Option JsonVal) (dec : JsonVal → Except ProtocolError α) :
    Except ProtocolError (Option α) :=
  match o with
  | none => .ok none
  | some j => (dec j).map some

/-- Deserialize the optional struct field stored under `key`. -/
def decodeOptField (fields : JsonObj) (key : String)
    (dec : JsonVal → Except ProtocolError α) : Except ProtocolError (Option α) :=
  decodeOptJson (jsonLookup fields key) dec

/-- Deserialize the required string field stored under `key`; a missing
required field is a serde error (`InvalidJson`). -/
def getStrField (fields : JsonObj) (key : String) : Except ProtocolError String :=
  match jsonLookup fields key with
  | some j => j.asString
  | none => .error .InvalidJson

/-- Serde deserialization of a request from its JSON document (the
`#[derive(Deserialize)]` on `DaemonRequest`): unknown members are ignored,
absent optional members yield `none`. -/
def DaemonRequest.fromJson (fields : JsonObj) : Except ProtocolError DaemonRequest := do
  let filename ← getStrField fields "filename"
  let output_filename ← decodeOptField fields "output_filename" JsonVal.asString
  let copy_command ← decodeOptField fields "copy_command" JsonVal.asString
  let initial_tool ← decodeOptField fields "initial_tool" JsonVal.asString
  let fullscreen ← decodeOptField fields "fullscreen" JsonVal.asBool
  let early_exit ← decodeOptField fields "early_exit" JsonVal.asBool
  let corner_roundness ← decodeOptField fields "corner_roundness" JsonVal.asFloat
  let size_factor ← decodeOptField fields "annotation_size_factor" JsonVal.asFloat
  let default_hide_toolbars ← decodeOptField fields "default_hide_toolbars" JsonVal.asBool
  let no_window_decoration ← decodeOptField fields "no_window_decoration" JsonVal.asBool
  let stdin_data ← decodeOptField fields "stdin_data" JsonVal.asString
  pure { filename, output_filename, copy_command, initial_tool, fullscreen,
         early_exit, corner_roundness, size_factor, default_hide_toolbars,
         no_window_decoration, stdin_data }

/-- Decoding of a request message body, `DaemonRequest::from_bytes`:
structural deserialization followed by semantic `validate()`.  The input is
the JSON document the bytes parse to; a parse failure of the byte layer is
the external serde_json text codec, below this model. -/
def DaemonRequest.from_bytes (fields : JsonObj) : Except ProtocolError DaemonRequest := do
  let request ← DaemonRequest.fromJson fields
  request.validate
  pure request

/-- Serde deserialization of a response status from its wire name. -/
def ResponseStatus.fromWireName (s : String) : Except ProtocolError ResponseStatus :=
  if s = "ok" then .ok .Ok
  else if s = "error" then .ok .Error
  else .error .InvalidJson

/-- Serde deserialization of a response from its JSON document. -/
def DaemonResponse.fromJson (fields : JsonObj) : Except ProtocolError DaemonResponse := do
  let statusName ← getStrField fields "status"
  let status ← ResponseStatus.fromWireName statusName
  let window_id ← decodeOptField fields "window_id" JsonVal.asNat
  let message ← decodeOptField fields "message" JsonVal.asString
  pure { status, window_id, message }

/-- Decoding of a response message body, `DaemonResponse::from_bytes`: plain
deserialization, no semantic validation. -/
def DaemonResponse.from_bytes (fields : JsonObj) : Except ProtocolError DaemonResponse :=
  DaemonResponse.fromJson fields

/-- Lowercase hexadecimal digit, used by serde_json's `\u00XX` escapes. -/
def hexDigit (n : Nat) : Char :=
  if n < 10 then Char.ofNat (48 + n) else Char.ofNat (87 + n)

/-- Compact-mode escaping of one character inside a JSON string, as performed
by serde_json: quote and backslash are escaped, control characters use the
short escapes `\b \t \n \f \r` or a `\u00XX` escape, everything else
(including non-ASCII) is emitted verbatim. -/
def escapeChar (c : Char) : List Char :=
  if c = '"' then ['\\', '"']
  else if c = '\\' then ['\\', '\\']
  else if c = '\n' then ['\\', 'n']
  else if c = '\r' then ['\\', 'r']
  else if c = '\t' then ['\\', 't']
  else if c.toNat = 8 then ['\\', 'b']
  else if c.toNat = 12 then ['\\', 'f']
  else if c.toNat < 32 then ['\\', 'u', '0', '0', hexDigit (c.toNat / 16), hexDigit (c.toNat % 16)]
  else [c]

/-- Escape every character of a string body. -/
def escapeList : List Char → List Char
  | [] => []
  | c :: cs => escapeChar c ++ escapeList cs

/-- Number of UTF-8 bytes encoding one character (RFC 3629; identical to
Rust's `char::len_utf8`). -/
def charSize (c : Char) : Nat :=
  if c.toNat < 128 then 1
  else if c.toNat < 2048 then 2
  else if c.toNat < 65536 then 3
  else 4

/-- Number of UTF-8 bytes encoding a character list; `Vec<u8>::len` of the
rendered text.  Rust's `str::len` of a `String` is `utf8Len s.data`. -/
def utf8Len : List Char → Nat
  | [] => 0
  | c :: cs => charSize c + utf8Len cs

/-- Rendering of a JSON string, quotes included. -/
def renderString (s : String) : List Char :=
  '"' :: (escapeList s.data ++ ['"'])

/-- Rendering of a scalar JSON value.  Float rendering stands in for
serde_json's shortest-representation printer; no claim depends on the digits
it produces. -/
def JsonVal.render : JsonVal → List Char
  | .str s => renderString s
  | .bool b => (if b then "true" else "false").data
  | .nat n => (toString n).data
  | .num x => (toString x).data

/-- Rendering of the members of an object, comma separated. -/
def renderMembers : JsonObj → List Char
  | [] => []
  | [(k, v)] => renderString k ++ ':' :: v.render
  | (k, v) :: rest => renderString k ++ ':' :: v.render ++ ',' :: renderMembers rest

/-- Compact rendering of a flat JSON object, the model of
`serde_json::to_vec` output. -/
def renderObj (fields : JsonObj) : List Char :=
  '{' :: (renderMembers fields ++ ['}'])

/-- Encoding of a request message body, `DaemonRequest::to_bytes`: serialize
to JSON, then fail with `MessageTooLarge` if the encoded body exceeds the
cap. -/
def DaemonRequest.to_bytes (r : DaemonRequest) : Except ProtocolError (List Char) :=
  let json := renderObj r.toJson
  if utf8Len json > MAX_MESSAGE_SIZE then .error (.MessageTooLarge (utf8Len json))
  else .ok json

/-- Encoding of a response message body, `DaemonResponse::to_bytes`:
serialize to JSON.  The source performs no size check here. -/
def DaemonResponse.to_bytes (p : DaemonResponse) : Except ProtocolError (List Char) :=
  .ok (renderObj p.toJson)

/-- Little-endian byte encoding of `len as u32`, `u32::to_le_bytes`. -/
def u32ToLeBytes (n : Nat) : List Nat :=
  [n % 256, n / 256 % 256, n / 65536 % 256, n / 16777216 % 256]

/-- Framed write of one message, `write_message` in protocol.rs: reject
oversized bodies pre-emptively, otherwise emit the 4-byte little-endian
length prefix followed by the body.  The returned list is everything the
writer puts on the wire. -/
def write_message (data : List Nat) : Except ProtocolError (List Nat) :=
  if data.length > MAX_MESSAGE_SIZE then .error (.MessageTooLarge data.length)
  else .ok (u32ToLeBytes (data.length % 4294967296) ++ data)

/-- Framed read of one message, `read_message` in protocol.rs, over the byte
stream the reader would deliver.  Fewer than 4 available bytes make the
prefix `read_exact` fail with `UnexpectedEof`, which the source maps to
`ConnectionClosed`; a declared length over the cap fails before reading the
body; a short body is a plain I/O error from the second `read_exact`. -/
def read_message (stream : List Nat) : Except ProtocolError (List Nat) :=
  match stream with
  | b0 :: b1 :: b2 :: b3 :: rest =>
    let len := b0 + 256 * b1 + 65536 * b2 + 16777216 * b3
    if len > MAX_MESSAGE_SIZE then .error (.MessageTooLarge len)
    else if rest.length < len then .error .Io
    else .ok (rest.take len)
  | _ => .error .ConnectionClosed

/-- Security error type, `SecurityError` in security.rs (the `Io` payload is
elided). -/
inductive SecurityError where
  | FileNotFound (path : String)
  | PathTraversal (path : String)
  | InvalidPath (msg : String)
  | Io
  | NotAFile (path : String)
deriving DecidableEq

/-- Display string of a security error, per the thiserror `#[error(...)]`
attributes in security.rs (the `Io` payload elided). -/
def SecurityError.toMessage : SecurityError → String
  | .FileNotFound p => "File not found: " ++ p
  | .PathTraversal p => "Path traversal detected: " ++ p
  | .InvalidPath m => "Invalid path: " ++ m
  | .Io => "IO error"
  | .NotAFile p => "Path is not a file: " ++ p

/-- Maximum path length in bytes, `MAX_PATH_LENGTH` in security.rs. -/
def MAX_PATH_LENGTH : Nat := 4096

/-- Outcome of `Path::canonicalize`: success with the canonical path,
`NotFound`, or any other I/O error. -/
inductive CanonicalizeResult where
  | ok (canonical : String)
  | notFound
  | ioError

/-- Filesystem oracle for the security validator: the behaviour of
`Path::canonicalize` and of `fs::metadata(..).is_file()` (`none` models a
`metadata` I/O error). -/
structure FileSystem where
  canonicalize : String → CanonicalizeResult
  isRegularFile : String → Option Bool

/-- Substring search over the character list of a string (true iff `pat`
occurs contiguously), the model of Rust `str::contains` with a literal
pattern.  The pattern `".."` is ASCII, so byte-level and character-level
search agree. -/
def substrAux (pat : List Char) : List Char → Bool
  | [] => pat.isEmpty
  | c :: rest => pat.isPrefixOf (c :: rest) || substrAux pat rest

/-- String containment, `haystack.contains(pat)`. -/
def hasSubstr (haystack pat : String) : Bool :=
  substrAux pat.data haystack.data

/-- Path validation, `validate_image_path` in security.rs: empty check, stdin
sentinel pass-through, byte-length limit, canonicalization via the
filesystem, a defensive substring re-check for `".."` on the canonical
result, and finally a regular-file check. -/
def validate_image_path (fs : FileSystem) (path : String) : Except SecurityError String :=
  if path = "" then
    .error (.InvalidPath "empty path")
  else if path = "-" then
    .ok "-"
  else if utf8Len path.data > MAX_PATH_LENGTH then
    .error (.InvalidPath ("path too long: " ++ toString (utf8Len path.data)
      ++ " bytes (max " ++ toString MAX_PATH_LENGTH ++ ")"))
  else
    match fs.canonicalize path with
    | .notFound => .error (.FileNotFound path)
    | .ioError => .error .Io
    | .ok canonical =>
      if hasSubstr canonical ".." then
        .error (.PathTraversal path)
      else
        match fs.isRegularFile canonical with
        | none => .error .Io
        | some false => .error (.NotAFile canonical)
        | some true => .ok canonical

/-- Segments of a character list between occurrences of a separator. -/
def splitOnChar (sep : Char) : List Char → List (List Char)
  | [] => [[]]
  | c :: cs =>
    match splitOnChar sep cs with
    | [] => [[]]
    | seg :: segs => if c = sep then [] :: seg :: segs else (c :: seg) :: segs

/-- Whether a path string has a parent-directory path segment, i.e. a
component between `/` separators that is exactly `".."`.  This follows the
specification's wording ("the canonical result still contains a
parent-directory segment") and is compared against the source's substring
check. -/
def hasParentDirSegment (s : String) : Bool :=
  (splitOnChar '/' s.data).contains ['.', '.']

/-- Index of a character in the standard base64 alphabet, if any. -/
def base64Index (c : Char) : Option Nat :=
  if 'A' ≤ c ∧ c ≤ 'Z' then some (c.toNat - 65)
  else if 'a' ≤ c ∧ c ≤ 'z' then some (c.toNat - 97 + 26)
  else if '0' ≤ c ∧ c ≤ '9' then some (c.toNat - 48 + 52)
  else if c = '+' then some 62
  else if c = '/' then some 63
  else none

/-- Standard base64 decoding with mandatory canonical padding, the behaviour
of the `base64` crate's `general_purpose::STANDARD` engine used in
`load_image_from_request`: groups of 4 symbols produce 3 bytes, the final
group may carry one or two `=` pads, non-alphabet characters, bad lengths
and non-zero trailing bits are rejected. -/
def base64DecodeGroups : List Char → Option (List Nat)
  | [] => some []
  | a :: b :: c :: d :: rest =>
    match base64Index a, base64Index b with
    | some x, some y =>
      if c = '=' then
        if d = '=' ∧ rest = [] ∧ y % 16 = 0 then some [x * 4 + y / 16] else none
      else
        match base64Index c with
        | some z =>
          if d = '=' then
            if rest = [] ∧ z % 4 = 0 then some [x * 4 + y / 16, y % 16 * 16 + z / 4] else none
          else
            match base64Index d with
            | some w =>
              (base64DecodeGroups rest).map
                (fun tail => (x * 4 + y / 16) :: (y % 16 * 16 + z / 4) :: (z % 4 * 64 + w) :: tail)
            | none => none
        | none => none
    | _, _ => none
  | _ => none

/-- Base64 decoding of a string payload to raw bytes. -/
def base64Decode (s : String) : Option (List Nat) :=
  base64DecodeGroups s.data

/-- Annotation tools.  The enum `crate::tools::Tools` lives outside the
provided sources; its variants are those of the identical CLI enum `Tools`
in cli/src/command_line.rs and the match arms of `parse_tool` in
request_config.rs. -/
inductive Tools where
  | Pointer
  | Crop
  | Line
  | Arrow
  | Rectangle
  | Ellipse
  | Text
  | Marker
  | Blur
  | Highlight
  | Brush
deriving DecidableEq

/-- Post-save actions, `Action` in configuration.rs. -/
inductive Action where
  | SaveToClipboard
  | SaveToFile
  | Exit
  | SaveToClipboardAndExit
  | SaveToFileAndExit
deriving DecidableEq

/-- Snapshot of the read-only accessors of the global `APP_CONFIG`
(configuration.rs) consumed by `RequestConfig::from_request` and
`from_global`.  `annotation_size_factor` is named `size_factor`, as in
`DaemonRequest`. -/
structure GlobalConfig where
  input_filename : String
  output_filename : Option String
  copy_command : Option String
  initial_tool : Tools
  fullscreen : Bool
  early_exit : Bool
  corner_roundness : Float
  size_factor : Float
  default_hide_toolbars : Bool
  no_window_decoration : Bool
  focus_toggles_toolbars : Bool
  actions_on_enter : List Action
  actions_on_escape : List Action
  actions_on_right_click : List Action

/-- Per-window configuration, `RequestConfig` in request_config.rs. -/
structure RequestConfig where
  input_filename : String
  output_filename : Option String
  copy_command : Option String
  initial_tool : Tools
  fullscreen : Bool
  early_exit : Bool
  corner_roundness : Float
  size_factor : Float
  default_hide_toolbars : Bool
  no_window_decoration : Bool
  focus_toggles_toolbars : Bool
  actions_on_enter : List Action
  actions_on_escape : List Action
  actions_on_right_click : List Action

/-- ASCII lowercasing of one character. -/
def lowerChar (c : Char) : Char :=
  if 'A' ≤ c ∧ c ≤ 'Z' then Char.ofNat (c.toNat + 32) else c

/-- Lowercasing of a string, the model of `str::to_lowercase` (the tool
names it is compared against are ASCII, where Rust's Unicode lowercasing and
ASCII lowercasing agree). -/
def strToLower (s : String) : String :=
  String.mk (s.data.map lowerChar)

/-- Tool name parsing, `parse_tool` in request_config.rs: lowercase the
string, then match against the known tool names. -/
def parse_tool (s : String) : Option Tools :=
  match strToLower s with
  | "pointer" => some .Pointer
  | "crop" => some .Crop
  | "line" => some .Line
  | "arrow" => some .Arrow
  | "rectangle" => some .Rectangle
  | "ellipse" => some .Ellipse
  | "text" => some .Text
  | "marker" => some .Marker
  | "blur" => some .Blur
  | "highlight" => some .Highlight
  | "brush" => some .Brush
  | _ => none

/-- Per-window configuration derivation, `RequestConfig::from_request`:
merge the request with the global configuration snapshot, request fields
taking precedence where present (for `initial_tool`, where present and
parseable). -/
def RequestConfig.from_request (global : GlobalConfig) (request : DaemonRequest) :
    RequestConfig where
  input_filename := request.filename
  output_filename :=
    match request.output_filename with
    | some v => some v
    | none => global.output_filename
  copy_command :=
    match request.copy_command with
    | some v => some v
    | none => global.copy_command
  initial_tool := (request.initial_tool.bind parse_tool).getD global.initial_tool
  fullscreen := request.fullscreen.getD global.fullscreen
  early_exit := request.early_exit.getD global.early_exit
  corner_roundness := request.corner_roundness.getD global.corner_roundness
  size_factor := request.size_factor.getD global.size_factor
  default_hide_toolbars := request.default_hide_toolbars.getD global.default_hide_toolbars
  no_window_decoration := request.no_window_decoration.getD global.no_window_decoration
  focus_toggles_toolbars := global.focus_toggles_toolbars
  actions_on_enter := global.actions_on_enter
  actions_on_escape := global.actions_on_escape
  actions_on_right_click := global.actions_on_right_click

/-- Image loading for a drained request, `load_image_from_request` in
main.rs.  `Img` abstracts `Pixbuf`; `pixbufFromBytes` models
`PixbufLoader` on the base64-decoded payload and `pixbufFromFile` models
`Pixbuf::from_file` on the validated path (`none` is a load failure).
Error strings are the anyhow messages of the source. -/
def load_image_from_request {Img : Type}
    (pixbufFromBytes : List Nat → Option Img) (pixbufFromFile : String → Option Img)
    (fs : FileSystem) (request : DaemonRequest) : Except String Img :=
  if request.filename = "-" then
    match request.stdin_data with
    | none => .error "No stdin data provided"
    | some data =>
      match base64Decode data with
      | none => .error "Failed to decode base64 image data"
      | some decoded =>
        match pixbufFromBytes decoded with
        | none => .error "Conversion to Pixbuf failed"
        | some img => .ok img
  else
    match validate_image_path fs request.filename with
    | .error e => .error ("Invalid image path: " ++ e.toMessage)
    | .ok path =>
      match pixbufFromFile path with
      | none => .error "Couldn't load image"
      | some img => .ok img

/-- Result of the GUI thread processing one drained request: the window
counter after the step, the response sent on the private reply channel, and
the image a window was spawned for (`none` when no window was created). -/
structure StepOut (Img : Type) where
  counter : Nat
  response : DaemonResponse
  spawned : Option Img

/-- One iteration of the 10 ms drain callback in `run_daemon` (main.rs) on a
drained `(request, reply_sender)` item: semantic validation, image loading,
then `window_counter.fetch_add(1) + 1` (an `AtomicU64`, hence the wrap at
2^64) and an `Ok(window_id)` reply before the window is spawned.  Failures
reply with `Error` and create no window; `loadImage` is the outcome of
`load_image_from_request` for this request. -/
def processRequest {Img : Type} (counter : Nat) (request : DaemonRequest)
    (loadImage : Except String Img) : StepOut Img :=
  match request.validate with
  | .error e => { counter := counter, response := .error e.toMessage, spawned := none }
  | .ok _ =>
    match loadImage with
    | .error msg => { counter := counter, response := .error msg, spawned := none }
    | .ok img =>
      let window_id := (counter + 1) % 18446744073709551616
      { counter := window_id, response := .ok window_id, spawned := some img }

/-- Sequential processing of drained requests by the single GUI-thread
consumer (one item per tick), threading the window counter; returns the
final counter and the responses in order. -/
def runDaemonLoop {Img : Type} (counter : Nat)
    (items : List (DaemonRequest × Except String Img)) : Nat × List DaemonResponse :=
  match items with
  | [] => (counter, [])
  | (request, load) :: rest =>
    let out := processRequest counter request load
    let tail := runDaemonLoop out.counter rest
    (tail.1, out.response :: tail.2)

/-- Window ids issued in a list of responses, in order. -/
def issuedIds (responses : List DaemonResponse) : List Nat :=
  responses.filterMap (fun p => p.window_id)

/-- Whether processing of one item succeeds (semantic validation and image
loading both succeed). -/
def stepOk {Img : Type} (request : DaemonRequest) (load : Except String Img) : Bool :=
  match request.validate, load with
  | .ok _, .ok _ => true
  | _, _ => false

/-- Number of successfully-processed items. -/
def numOk {Img : Type} : List (DaemonRequest × Except String Img) → Nat
  | [] => 0
  | (request, load) :: rest => (if stepOk request load then 1 else 0) + numOk rest

/-- Client-side timeout in seconds for establishing a connection,
`CONNECTION_TIMEOUT` in socket.rs. -/
def CONNECTION_TIMEOUT : Nat := 5

/-- Client-side timeout in seconds for awaiting the response,
`READ_TIMEOUT` in socket.rs. -/
def READ_TIMEOUT : Nat := 30

/-- Timeouts a client code path configures for its three I/O phases
(`none` = the phase runs without a bound). -/
structure ClientTimeouts where
  connectTimeoutSecs : Option Nat
  readTimeoutSecs : Option Nat
  writeTimeoutSecs : Option Nat
deriving DecidableEq

/-- Phase timeouts of the synchronous `DaemonClient::send_request`
(socket.rs lines 137-154): a plain blocking `StdUnixStream::connect` with no
timeout wrapper, then `set_read_timeout(READ_TIMEOUT)` and
`set_write_timeout(CONNECTION_TIMEOUT)` on the connected stream. -/
def send_request_timeouts : ClientTimeouts where
  connectTimeoutSecs := none
  readTimeoutSecs := some READ_TIMEOUT
  writeTimeoutSecs := some CONNECTION_TIMEOUT

/-- Phase timeouts of `DaemonClient::send_request_async` (socket.rs lines
158-195): the connect and read phases are wrapped in
`tokio::time::timeout`, the write phase is not. -/
def send_request_async_timeouts : ClientTimeouts where
  connectTimeoutSecs := some CONNECTION_TIMEOUT
  readTimeoutSecs := some READ_TIMEOUT
  writeTimeoutSecs := none

/-- First-match lookup combinator on options, used to state how `jsonLookup`
distributes over list append. -/
def optOr (a b : Option α) : Option α :=
  match a with
  | some x => some x
  | none => b

/-- Functional model of the synchronous `DaemonClient::send_request`:
connect, encode the request, exchange it for a response body over the
socket, decode exactly one response.  `connect` is the outcome of
`StdUnixStream::connect`; `transport` is the outcome of
`write_message + flush + read_message` on the connected stream and returns
the response's JSON document.  Every failure propagates to the caller via
the `?` operator of the source. -/
def DaemonClient.send_request (connect : Except ProtocolError Unit)
    (transport : List Char → Except ProtocolError JsonObj)
    (request : DaemonRequest) : Except ProtocolError DaemonResponse := do
  connect
  let data ← request.to_bytes
  let responseBody ← transport data
  DaemonResponse.from_bytes responseBody

/-! Concrete fixtures used by witnesses and counterexamples. -/

/-- A string of 16 MiB of `'a'`, for exercising the size cap. -/
def bigStr : String := String.mk (List.replicate MAX_MESSAGE_SIZE 'a')

/-- Filesystem oracle in which every path is already canonical and names a
regular file. -/
def fsCanonEx : FileSystem where
  canonicalize := fun p => .ok p
  isRegularFile := fun _ => some true

/-- An existing regular file whose name contains `".."` as a substring but
has no parent-directory segment. -/
def dotdotPath : String := "/tmp/a..b.png"

/-- A request with a non-ASCII filename and a mix of present and absent
optional fields. -/
def reqEx : DaemonRequest where
  filename := "/tmp/скриншот.png"
  output_filename := some "/tmp/out.png"
  fullscreen := some true

/-- A successful response fixture. -/
def respEx : DaemonResponse := DaemonResponse.ok 42

/-- A parsed request document carrying an unknown member. -/
def jDocEx : JsonObj := [("filename", .str "/tmp/x.png"), ("unknown_field", .str "v")]

/-- A stdin-sentinel request whose payload is not valid base64. -/
def reqBadB64 : DaemonRequest where
  filename := "-"
  stdin_data := some "!!!"

/-- A global configuration snapshot with default-like values. -/
def gConfA : GlobalConfig where
  input_filename := ""
  output_filename := none
  copy_command := none
  initial_tool := .Pointer
  fullscreen := false
  early_exit := false
  corner_roundness := 12.0
  size_factor := 1.0
  default_hide_toolbars := false
  no_window_decoration := false
  focus_toggles_toolbars := false
  actions_on_enter := []
  actions_on_escape := [.Exit]
  actions_on_right_click := []

/-- The same snapshot with a different default tool. -/
def gConfB : GlobalConfig := { gConfA with initial_tool := .Arrow }

/-- A request whose `initial_tool` is present but names no known tool. -/
def reqToolInvalid : DaemonRequest where
  filename := "/tmp/x.png"
  initial_tool := some "invalid"

/-- A request exercising several present override fields. -/
def reqOverrides : DaemonRequest where
  filename := "/tmp/x.png"
  output_filename := some "/tmp/o.png"
  initial_tool := some "ARROW"
  fullscreen := some true

/-- Transport oracle that always fails with a closed connection. -/
def transpErr : List Char → Except ProtocolError JsonObj :=
  fun _ => .error .ConnectionClosed

/-- A drain-loop scenario: a valid request that loads, an invalid request,
and another valid request. -/
def itemsEx : List (DaemonRequest × Except String Unit) :=
  [(DaemonRequest.new "/tmp/x.png", .ok ()),
   (DaemonRequest.new "", .error "Invalid image path: File not found: "),
   ({ filename := "-", stdin_data := some "AAAA" }, .ok ())]

/-! Helper lemmas. -/

theorem optOr_none_left (b : Option α) : optOr none b = b := rfl

theorem optOr_some (x : α) (b : Option α) : optOr (some x) b = some x := rfl

theorem optOr_none_right (a : Option α) : optOr a none = a := by
  cases a <;> rfl

theorem jsonLookup_append (xs ys : JsonObj) (key : String) :
    jsonLookup (xs ++ ys) key = optOr (jsonLookup xs key) (jsonLookup ys key) := by
  induction xs with
  | nil => simp [jsonLookup, optOr]
  | cons p rest ih =>
    obtain ⟨k, v⟩ := p
    by_cases h : k = key <;> simp [jsonLookup, h, ih, optOr]

theorem jsonLookup_cons_ne (k key : String) (h : ¬ k = key) (v : JsonVal) (rest : JsonObj) :
    jsonLookup ((k, v) :: rest) key = jsonLookup rest key := by
  simp [jsonLookup, h]

theorem jsonLookup_cons_self (k : String) (v : JsonVal) (rest : JsonObj) :
    jsonLookup ((k, v) :: rest) k = some v := by
  simp [jsonLookup]

theorem jsonLookup_optField_eq (k : String) (enc : α → JsonVal) (v : Option α) :
    jsonLookup (optField k enc v) k = v.map enc := by
  cases v <;> simp [optField, jsonLookup]

theorem jsonLookup_optField_ne (k key : String) (h : ¬ k = key) (enc : α → JsonVal)
    (v : Option α) : jsonLookup (optField k enc v) key = none := by
  cases v <;> simp [optField, jsonLookup, h]

theorem decodeOptJson_map_str (v : Option String) :
    decodeOptJson (v.map .str) JsonVal.asString = .ok v := by
  cases v <;> rfl

theorem decodeOptJson_map_bool (v : Option Bool) :
    decodeOptJson (v.map .bool) JsonVal.asBool = .ok v := by
  cases v <;> rfl

theorem decodeOptJson_map_num (v : Option Float) :
    decodeOptJson (v.map .num) JsonVal.asFloat = .ok v := by
  cases v <;> rfl

theorem decodeOptJson_map_nat (v : Option Nat) :
    decodeOptJson (v.map .nat) JsonVal.asNat = .ok v := by
  cases v <;> rfl

theorem exceptBind_ok (a : α) (f : α → Except ε β) :
    (Except.ok a : Except ε α) >>= f = f a := rfl

theorem exceptBind_err (e : ε) (f : α → Except ε β) :
    (Except.error e : Except ε α) >>= f = .error e := rfl

theorem exceptPure (a : α) : (pure a : Except ε α) = Except.ok a := rfl

theorem lookup_req_filename (r : DaemonRequest) :
    jsonLookup (reqFields r) "filename" = some (.str r.filename) := by
  simp [reqFields, jsonLookup_cons_self]

theorem lookup_req_output (r : DaemonRequest) :
    jsonLookup (reqFields r) "output_filename" = r.output_filename.map .str := by
  simp [reqFields, jsonLookup_append, jsonLookup_cons_ne, jsonLookup_optField_eq,
    jsonLookup_optField_ne, optOr_none_left, optOr_some, optOr_none_right]

theorem lookup_req_copy (r : DaemonRequest) :
    jsonLookup (reqFields r) "copy_command" = r.copy_command.map .str := by
  simp [reqFields, jsonLookup_append, jsonLookup_cons_ne, jsonLookup_optField_eq,
    jsonLookup_optField_ne, optOr_none_left, optOr_some, optOr_none_right]

theorem lookup_req_tool (r : DaemonRequest) :
    jsonLookup (reqFields r) "initial_tool" = r.initial_tool.map .str := by
  simp [reqFields, jsonLookup_append, jsonLookup_cons_ne, jsonLookup_optField_eq,
    jsonLookup_optField_ne, optOr_none_left, optOr_some, optOr_none_right]

theorem lookup_req_fullscreen (r : DaemonRequest) :
    jsonLookup (reqFields r) "fullscreen" = r.fullscreen.map .bool := by
  simp [reqFields, jsonLookup_append, jsonLookup_cons_ne, jsonLookup_optField_eq,
    jsonLookup_optField_ne, optOr_none_left, optOr_some, optOr_none_right]

theorem lookup_req_early (r : DaemonRequest) :
    jsonLookup (reqFields r) "early_exit" = r.early_exit.map .bool := by
  simp [reqFields, jsonLookup_append, jsonLookup_cons_ne, jsonLookup_optField_eq,
    jsonLookup_optField_ne, optOr_none_left, optOr_some, optOr_none_right]

theorem lookup_req_corner (r : DaemonRequest) :
    jsonLookup (reqFields r) "corner_roundness" = r.corner_roundness.map .num := by
  simp [reqFields, jsonLookup_append, jsonLookup_cons_ne, jsonLookup_optField_eq,
    jsonLookup_optField_ne, optOr_none_left, optOr_some, optOr_none_right]

theorem lookup_req_sizef (r : DaemonRequest) :
    jsonLookup (reqFields r) "annotation_size_factor" = r.size_factor.map .num := by
  simp [reqFields, jsonLookup_append, jsonLookup_cons_ne, jsonLookup_optField_eq,
    jsonLookup_optField_ne, optOr_none_left, optOr_some, optOr_none_right]

theorem lookup_req_hide (r : DaemonRequest) :
    jsonLookup (reqFields r) "default_hide_toolbars" = r.default_hide_toolbars.map .bool := by
  simp [reqFields, jsonLookup_append, jsonLookup_cons_ne, jsonLookup_optField_eq,
    jsonLookup_optField_ne, optOr_none_left, optOr_some, optOr_none_right]

theorem lookup_req_nodec (r : DaemonRequest) :
    jsonLookup (reqFields r) "no_window_decoration" = r.no_window_decoration.map .bool := by
  simp [reqFields, jsonLookup_append, jsonLookup_cons_ne, jsonLookup_optField_eq,
    jsonLookup_optField_ne, optOr_none_left, optOr_some, optOr_none_right]

theorem lookup_req_stdin (r : DaemonRequest) :
    jsonLookup (reqFields r) "stdin_data" = r.stdin_data.map .str := by
  simp [reqFields, jsonLookup_append, jsonLookup_cons_ne, jsonLookup_optField_eq,
    jsonLookup_optField_ne, optOr_none_left, optOr_some, optOr_none_right]

/-- Serde round trip of a request at the JSON-document level. -/
theorem fromJson_toJson (r : DaemonRequest) :
    DaemonRequest.fromJson r.toJson = .ok r := by
  simp only [DaemonRequest.fromJson, DaemonRequest.toJson, decodeOptField, getStrField,
    lookup_req_filename, lookup_req_output, lookup_req_copy, lookup_req_tool,
    lookup_req_fullscreen, lookup_req_early, lookup_req_corner, lookup_req_sizef,
    lookup_req_hide, lookup_req_nodec, lookup_req_stdin,
    decodeOptJson_map_str, decodeOptJson_map_bool, decodeOptJson_map_num,
    JsonVal.asString, exceptBind_ok, exceptPure]

theorem lookup_resp_status (p : DaemonResponse) :
    jsonLookup (respFields p) "status" = some (.str p.status.wireName) := by
  simp [respFields, jsonLookup_cons_self]

theorem lookup_resp_wid (p : DaemonResponse) :
    jsonLookup (respFields p) "window_id" = p.window_id.map .nat := by
  simp [respFields, jsonLookup_append, jsonLookup_cons_ne, jsonLookup_optField_eq,
    jsonLookup_optField_ne, optOr_none_left, optOr_some, optOr_none_right]

theorem lookup_resp_message (p : DaemonResponse) :
    jsonLookup (respFields p) "message" = p.message.map .str := by
  simp [respFields, jsonLookup_append, jsonLookup_cons_ne, jsonLookup_optField_eq,
    jsonLookup_optField_ne, optOr_none_left, optOr_some, optOr_none_right]

theorem fromWireName_wireName (s : ResponseStatus) :
    ResponseStatus.fromWireName s.wireName = .ok s := by
  cases s <;> rfl

/-- Serde round trip of a response at the JSON-document level. -/
theorem respFromJson_toJson (p : DaemonResponse) :
    DaemonResponse.fromJson p.toJson = .ok p := by
  simp only [DaemonResponse.fromJson, DaemonResponse.toJson, decodeOptField, getStrField,
    lookup_resp_status, lookup_resp_wid, lookup_resp_message, JsonVal.asString,
    fromWireName_wireName, decodeOptJson_map_nat, decodeOptJson_map_str,
    exceptBind_ok, exceptPure]

theorem utf8Len_append (xs ys : List Char) :
    utf8Len (xs ++ ys) = utf8Len xs + utf8Len ys := by
  induction xs with
  | nil => simp [utf8Len]
  | cons c cs ih => simp [utf8Len, ih]; omega

theorem escapeChar_a : escapeChar 'a' = ['a'] := by decide

theorem charSize_a : charSize 'a' = 1 := by decide

theorem escapeList_replicate_a (n : Nat) :
    escapeList (List.replicate n 'a') = List.replicate n 'a' := by
  induction n with
  | zero => rfl
  | succ n ih => simp [List.replicate_succ, escapeList, escapeChar_a, ih]

theorem utf8Len_replicate_a (n : Nat) :
    utf8Len (List.replicate n 'a') = n := by
  induction n with
  | zero => rfl
  | succ n ih => simp [List.replicate_succ, utf8Len, charSize_a, ih]; omega

/-- Rendered form of an error response: constant framing around the escaped
message body. -/
theorem renderObj_error_shape (msg : String) :
    renderObj (DaemonResponse.toJson (DaemonResponse.error msg)) =
      "\x7b\"status\":\"error\",\"message\":\"".data ++ escapeList msg.data ++ "\"\x7d".data := by
  simp [renderObj, DaemonResponse.toJson, DaemonResponse.error, respFields, optField,
    renderMembers, JsonVal.render, renderString, escapeList, escapeChar, hexDigit]

/-- Rendered form of a minimal request: constant framing around the escaped
filename. -/
theorem renderObj_minreq_shape (fn : String) :
    renderObj (DaemonRequest.toJson (DaemonRequest.new fn)) =
      "\x7b\"filename\":\"".data ++ escapeList fn.data ++ "\"\x7d".data := by
  simp [renderObj, DaemonRequest.toJson, DaemonRequest.new, reqFields, optField,
    renderMembers, JsonVal.render, renderString, escapeList, escapeChar, hexDigit]

theorem len_prefix_err : utf8Len "\x7b\"status\":\"error\",\"message\":\"".data = 29 := by decide

theorem len_prefix_fn : utf8Len "\x7b\"filename\":\"".data = 13 := by decide

theorem len_suffix : utf8Len "\"\x7d".data = 2 := by decide

theorem bigStr_data : bigStr.data = List.replicate MAX_MESSAGE_SIZE 'a' := rfl

/-- Encoded size of the oversized error response. -/
theorem bigResp_render_size :
    utf8Len (renderObj (DaemonResponse.toJson (DaemonResponse.error bigStr))) =
      MAX_MESSAGE_SIZE + 31 := by
  rw [renderObj_error_shape, utf8Len_append, utf8Len_append, len_prefix_err, len_suffix,
    bigStr_data, escapeList_replicate_a, utf8Len_replicate_a]
  omega

/-- Encoded size of the oversized minimal request. -/
theorem bigReq_render_size :
    utf8Len (renderObj (DaemonRequest.toJson (DaemonRequest.new bigStr))) =
      MAX_MESSAGE_SIZE + 15 := by
  rw [renderObj_minreq_shape, utf8Len_append, utf8Len_append, len_prefix_fn, len_suffix,
    bigStr_data, escapeList_replicate_a, utf8Len_replicate_a]
  omega

/-- Counter and issued-id behaviour of the drain loop: the counter advances
by one per successful item, and the issued ids are the consecutive integers
after the starting counter. -/
theorem runDaemonLoop_spec {Img : Type} (items : List (DaemonRequest × Except String Img))
    (c : Nat) (h : c + items.length < 18446744073709551616) :
    (runDaemonLoop c items).1 = c + numOk items ∧
    issuedIds (runDaemonLoop c items).2 = (List.range (numOk items)).map (fun i => c + 1 + i) := by
  induction items generalizing c with
  | nil => simp [runDaemonLoop, numOk, issuedIds]
  | cons p rest ih =>
    obtain ⟨req, load⟩ := p
    have hrest : c + rest.length < 18446744073709551616 := by
      simp [List.length_cons] at h; omega
    cases hv : req.validate with
    | error e =>
      have hout : processRequest c req load =
          { counter := c, response := .error e.toMessage, spawned := none } := by
        simp [processRequest, hv]
      have hnum : numOk ((req, load) :: rest) = numOk rest := by
        simp [numOk, stepOk, hv]
      obtain ⟨ih1, ih2⟩ := ih c hrest
      refine ⟨?_, ?_⟩
      · simp [runDaemonLoop, hout, hnum, ih1]
      · simp [runDaemonLoop, hout, hnum, issuedIds, DaemonResponse.error,
          List.filterMap_cons] at ih2 ⊢
        exact ih2
    | ok u =>
      cases hl : load with
      | error msg =>
        subst hl
        have hout : processRequest c req (Except.error msg : Except String Img) =
            { counter := c, response := .error msg, spawned := none } := by
          simp [processRequest, hv]
        have hnum : numOk ((req, (Except.error msg : Except String Img)) :: rest) =
            numOk rest := by
          simp [numOk, stepOk, hv]
        obtain ⟨ih1, ih2⟩ := ih c hrest
        refine ⟨?_, ?_⟩
        · simp [runDaemonLoop, hout, hnum, ih1]
        · simp [runDaemonLoop, hout, hnum, issuedIds, DaemonResponse.error,
            List.filterMap_cons] at ih2 ⊢
          exact ih2
      | ok img =>
        subst hl
        have hm : (c + 1) % 18446744073709551616 = c + 1 :=
          Nat.mod_eq_of_lt (by simp [List.length_cons] at h; omega)
        have hout : processRequest c req (Except.ok img : Except String Img) =
            { counter := c + 1, response := .ok (c + 1), spawned := some img } := by
          simp [processRequest, hv, hm]
        have hnum : numOk ((req, (Except.ok img : Except String Img)) :: rest) =
            numOk rest + 1 := by
          simp [numOk, stepOk, hv]
          omega
        have hrest' : (c + 1) + rest.length < 18446744073709551616 := by
          simp [List.length_cons] at h; omega
        obtain ⟨ih1, ih2⟩ := ih (c + 1) hrest'
        have ih2' : List.filterMap (fun p => p.window_id) (runDaemonLoop (c + 1) rest).2 =
            (List.range (numOk rest)).map (fun i => c + 1 + 1 + i) := by
          simpa [issuedIds] using ih2
        refine ⟨?_, ?_⟩
        · simp [runDaemonLoop, hout, hnum, ih1]; omega
        · rw [hnum, List.range_succ_eq_map]
          simp [runDaemonLoop, hout, issuedIds, DaemonResponse.ok, List.filterMap_cons,
            ih2', List.map_map]
          intro a _
          omega
/-- C1: for every request whose filename is the stdin sentinel `"-"`,
`validate()` succeeds iff `stdin_data` is present; when it is absent,
`validate()` returns the `MissingField` error and the drain step sends an
error response, leaves the counter unchanged and spawns no window. -/
theorem claim_C1 (r : DaemonRequest) (h : r.filename = "-") :
    (r.validate = .ok () ↔ r.stdin_data.isSome = true) ∧
    (r.stdin_data = none →
      r.validate = .error (.MissingField "stdin_data (required when filename is '-')") ∧
      ∀ (Img : Type) (c : Nat) (load : Except String Img),
        (processRequest c r load).response =
          DaemonResponse.error
            (ProtocolError.MissingField
              "stdin_data (required when filename is '-')").toMessage ∧
        (processRequest c r load).spawned = none ∧
        (processRequest c r load).counter = c) := by
  constructor
  · cases hs : r.stdin_data <;> simp [DaemonRequest.validate, h, hs]
  · intro hs
    have hval : r.validate =
        .error (.MissingField "stdin_data (required when filename is '-')") := by
      simp [DaemonRequest.validate, h, hs]
    exact ⟨hval, fun Img c load => by simp [processRequest, hval]⟩

theorem claim_C1_witness :
    ((DaemonRequest.new "-").validate = .ok () ↔
      (DaemonRequest.new "-").stdin_data.isSome = true) ∧
    ((DaemonRequest.new "-").stdin_data = none →
      (DaemonRequest.new "-").validate =
        .error (.MissingField "stdin_data (required when filename is '-')") ∧
      ∀ (Img : Type) (c : Nat) (load : Except String Img),
        (processRequest c (DaemonRequest.new "-") load).response =
          DaemonResponse.error
            (ProtocolError.MissingField
              "stdin_data (required when filename is '-')").toMessage ∧
        (processRequest c (DaemonRequest.new "-") load).spawned = none ∧
        (processRequest c (DaemonRequest.new "-") load).counter = c) :=
  claim_C1 (DaemonRequest.new "-") rfl

/-- C3: serde round trip — decoding the serialized form of any well-formed
request (one accepted by `validate()`) or any response yields the original
value, non-ASCII strings included. -/
theorem claim_C3 :
    (∀ r : DaemonRequest, r.validate = .ok () →
      DaemonRequest.from_bytes r.toJson = .ok r) ∧
    (∀ p : DaemonResponse, DaemonResponse.from_bytes p.toJson = .ok p) := by
  constructor
  · intro r h
    simp only [DaemonRequest.from_bytes, fromJson_toJson, exceptBind_ok, h, exceptPure]
  · intro p
    simp only [DaemonResponse.from_bytes, respFromJson_toJson]

theorem claim_C3_witness :
    reqEx.validate = .ok () ∧
    DaemonRequest.from_bytes reqEx.toJson = .ok reqEx ∧
    DaemonResponse.from_bytes respEx.toJson = .ok respEx :=
  ⟨by decide, claim_C3.1 reqEx (by decide), claim_C3.2 respEx⟩

/-- C9: every request obtained from `DaemonRequest::from_bytes` satisfies
`validate()` — decoding performs semantic validation after structural
parsing, so no invalid request value can be obtained from bytes. -/
theorem claim_C9 (fields : JsonObj) (r : DaemonRequest)
    (h : DaemonRequest.from_bytes fields = .ok r) : r.validate = .ok () := by
  simp only [DaemonRequest.from_bytes] at h
  cases hf : DaemonRequest.fromJson fields with
  | error e => rw [hf, exceptBind_err] at h; exact absurd h (by simp)
  | ok req =>
    rw [hf, exceptBind_ok] at h
    cases hv : req.validate with
    | error e => rw [hv, exceptBind_err] at h; exact absurd h (by simp)
    | ok u =>
      rw [hv, exceptBind_ok, exceptPure] at h
      cases u
      obtain rfl : req = r := by simpa using h
      exact hv

theorem claim_C9_witness :
    DaemonRequest.from_bytes jDocEx = .ok (DaemonRequest.new "/tmp/x.png") ∧
    (DaemonRequest.new "/tmp/x.png").validate = .ok () :=
  ⟨rfl, claim_C9 jDocEx (DaemonRequest.new "/tmp/x.png") rfl⟩

/-- C10: `validate()` never inspects the content of `stdin_data` — any
present payload passes, valid base64 or not; a payload that fails base64
decoding is caught only in `load_image_from_request`, where the drain step
turns it into an error response for that one request (no window, counter
unchanged). -/
theorem claim_C10 :
    (∀ (r : DaemonRequest) (s : String),
      r.filename = "-" → r.stdin_data = some s → r.validate = .ok ()) ∧
    (∀ (Img : Type) (pixbufFromBytes : List Nat → Option Img)
      (pixbufFromFile : String → Option Img) (fs : FileSystem)
      (c : Nat) (r : DaemonRequest) (s : String),
      r.filename = "-" → r.stdin_data = some s → base64Decode s = none →
      (processRequest c r
          (load_image_from_request pixbufFromBytes pixbufFromFile fs r)).response =
        DaemonResponse.error "Failed to decode base64 image data" ∧
      (processRequest c r
          (load_image_from_request pixbufFromBytes pixbufFromFile fs r)).spawned = none ∧
      (processRequest c r
          (load_image_from_request pixbufFromBytes pixbufFromFile fs r)).counter = c) := by
  have hval : ∀ (r : DaemonRequest) (s : String),
      r.filename = "-" → r.stdin_data = some s → r.validate = .ok () := by
    intro r s h1 h2
    simp [DaemonRequest.validate, h1, h2]
  refine ⟨hval, ?_⟩
  intro Img pb pf fs c r s h1 h2 h3
  have hload : load_image_from_request pb pf fs r =
      .error "Failed to decode base64 image data" := by
    simp [load_image_from_request, h1, h2, h3]
  simp [processRequest, hval r s h1 h2, hload]

theorem claim_C10_witness :
    reqBadB64.validate = .ok () ∧
    (processRequest 7 reqBadB64
        (load_image_from_request (fun _ => (none : Option Unit)) (fun _ => none)
          fsCanonEx reqBadB64)).response =
      DaemonResponse.error "Failed to decode base64 image data" ∧
    (processRequest 7 reqBadB64
        (load_image_from_request (fun _ => (none : Option Unit)) (fun _ => none)
          fsCanonEx reqBadB64)).spawned = none ∧
    (processRequest 7 reqBadB64
        (load_image_from_request (fun _ => (none : Option Unit)) (fun _ => none)
          fsCanonEx reqBadB64)).counter = 7 :=
  ⟨claim_C10.1 reqBadB64 "!!!" rfl rfl,
   claim_C10.2 Unit (fun _ => none) (fun _ => none) fsCanonEx 7 reqBadB64 "!!!"
     rfl rfl (by decide)⟩

/-- C2: starting from counter 0, the ids issued by the drain loop over any
request sequence (fewer than 2^64 items, the `AtomicU64` range) are exactly
1, 2, ..., k where k is the number of successfully-processed requests —
strictly increasing, no repeats, first id 1 — and the counter is incremented
exactly once per success, never on an error response. -/
theorem claim_C2 {Img : Type} (items : List (DaemonRequest × Except String Img))
    (h : items.length < 18446744073709551616) :
    issuedIds (runDaemonLoop 0 items).2 =
      (List.range (numOk items)).map (fun i => 1 + i) ∧
    List.Chain' (· < ·) (issuedIds (runDaemonLoop 0 items).2) ∧
    (issuedIds (runDaemonLoop 0 items).2).Nodup ∧
    (runDaemonLoop 0 items).1 = numOk items ∧
    (numOk items ≠ 0 → (issuedIds (runDaemonLoop 0 items).2).head? = some 1) := by
  obtain ⟨h1, h2⟩ := runDaemonLoop_spec items 0 (by omega)
  have hids : issuedIds (runDaemonLoop 0 items).2 =
      (List.range (numOk items)).map (fun i => 1 + i) := by
    simpa using h2
  have hpair : ((List.range (numOk items)).map (fun i => 1 + i)).Pairwise (· < ·) := by
    refine List.Pairwise.map _ ?_ (List.pairwise_lt_range _)
    intro a b hab
    omega
  refine ⟨hids, ?_, ?_, by simpa using h1, ?_⟩
  · rw [hids]; exact hpair.chain'
  · rw [hids]; exact hpair.imp Nat.ne_of_lt
  · intro hk
    rw [hids]
    cases hn : numOk items with
    | zero => exact absurd hn hk
    | succ k => simp [List.range_succ_eq_map]

theorem claim_C2_witness :
    issuedIds (runDaemonLoop 0 itemsEx).2 =
      (List.range (numOk itemsEx)).map (fun i => 1 + i) ∧
    List.Chain' (· < ·) (issuedIds (runDaemonLoop 0 itemsEx).2) ∧
    (issuedIds (runDaemonLoop 0 itemsEx).2).Nodup ∧
    (runDaemonLoop 0 itemsEx).1 = numOk itemsEx ∧
    (numOk itemsEx ≠ 0 → (issuedIds (runDaemonLoop 0 itemsEx).2).head? = some 1) :=
  claim_C2 itemsEx (by decide)

/-- C7: framing round trip — reading back the stream produced by writing any
message of length at most the cap returns exactly that message, and reading
a zero-byte stream (no length prefix at all) fails with `ConnectionClosed`
rather than a generic I/O error. -/
theorem claim_C7 :
    (∀ data framed : List Nat, write_message data = .ok framed →
      read_message framed = .ok data) ∧
    read_message [] = .error .ConnectionClosed := by
  refine ⟨?_, rfl⟩
  intro data framed hw
  simp only [write_message, MAX_MESSAGE_SIZE] at hw
  split at hw
  · exact absurd hw (by simp)
  · rename_i hle
    obtain rfl : u32ToLeBytes (data.length % 4294967296) ++ data = framed := by
      simpa using hw
    have hlen : data.length ≤ 16 * 1024 * 1024 := by omega
    simp only [u32ToLeBytes, List.cons_append, List.nil_append, read_message,
      MAX_MESSAGE_SIZE]
    have hrec : data.length % 4294967296 % 256 +
        256 * (data.length % 4294967296 / 256 % 256) +
        65536 * (data.length % 4294967296 / 65536 % 256) +
        16777216 * (data.length % 4294967296 / 16777216 % 256) = data.length := by
      omega
    rw [hrec]
    have : ¬ data.length > 16 * 1024 * 1024 := by omega
    simp [this, List.take_length]

theorem claim_C7_witness :
    write_message [1, 2, 3] = .ok [3, 0, 0, 0, 1, 2, 3] ∧
    read_message [3, 0, 0, 0, 1, 2, 3] = .ok [1, 2, 3] :=
  ⟨by decide, claim_C7.1 [1, 2, 3] [3, 0, 0, 0, 1, 2, 3] (by decide)⟩

/-- C4 counterexample: a response whose encoded body exceeds the 16 MiB cap
is still encoded successfully — `DaemonResponse::to_bytes` performs no size
check, refuting the claim for responses. -/
theorem claim_C4_counterexample :
    DaemonResponse.to_bytes (DaemonResponse.error bigStr) =
      .ok (renderObj (DaemonResponse.toJson (DaemonResponse.error bigStr))) ∧
    MAX_MESSAGE_SIZE <
      utf8Len (renderObj (DaemonResponse.toJson (DaemonResponse.error bigStr))) :=
  ⟨rfl, by rw [bigResp_render_size]; omega⟩

/-- C4 (amended): request encoding enforces the 16 MiB cap — it fails with
`MessageTooLarge` whenever the encoded body exceeds the cap and never
returns a body over the cap — while response encoding performs no size check
and returns the encoded body unconditionally. -/
theorem claim_C4 :
    (∀ (r : DaemonRequest) (bytes : List Char),
      DaemonRequest.to_bytes r = .ok bytes → utf8Len bytes ≤ MAX_MESSAGE_SIZE) ∧
    (∀ r : DaemonRequest, MAX_MESSAGE_SIZE < utf8Len (renderObj r.toJson) →
      DaemonRequest.to_bytes r =
        .error (.MessageTooLarge (utf8Len (renderObj r.toJson)))) ∧
    (∀ p : DaemonResponse,
      DaemonResponse.to_bytes p = .ok (renderObj p.toJson)) := by
  refine ⟨?_, ?_, fun p => rfl⟩
  · intro r bytes hok
    simp only [DaemonRequest.to_bytes] at hok
    split at hok
    · exact absurd hok (by simp)
    · rename_i hle
      obtain rfl : renderObj r.toJson = bytes := by simpa using hok
      omega
  · intro r hbig
    simp only [DaemonRequest.to_bytes]
    split
    · rfl
    · rename_i hle
      omega

theorem claim_C4_witness :
    utf8Len (renderObj (DaemonRequest.toJson (DaemonRequest.new "/tmp/x.png"))) ≤
      MAX_MESSAGE_SIZE ∧
    DaemonRequest.to_bytes (DaemonRequest.new bigStr) =
      .error (.MessageTooLarge
        (utf8Len (renderObj (DaemonRequest.toJson (DaemonRequest.new bigStr))))) :=
  ⟨claim_C4.1 (DaemonRequest.new "/tmp/x.png") _ rfl,
   claim_C4.2.1 (DaemonRequest.new bigStr) (by rw [bigReq_render_size]; omega)⟩

/-- C5 counterexample: an existing regular file whose canonical name merely
contains `".."` as a substring (no parent-directory segment) is rejected
with `PathTraversal`, refuting the claim that such paths are never
rejected. -/
theorem claim_C5_counterexample :
    validate_image_path fsCanonEx dotdotPath = .error (.PathTraversal dotdotPath) ∧
    hasParentDirSegment dotdotPath = false := by
  constructor <;> decide

/-- C5 (amended): after a successful canonicalization, `validate_image_path`
returns `PathTraversal` exactly when the canonical result contains `".."`
as a substring — a check coarser than "contains a parent-directory segment",
so file names merely containing `".."` are also rejected. -/
theorem claim_C5 (fs : FileSystem) (path canonical : String)
    (h1 : ¬ path = "") (h2 : ¬ path = "-")
    (h3 : ¬ utf8Len path.data > MAX_PATH_LENGTH)
    (h4 : fs.canonicalize path = .ok canonical) :
    validate_image_path fs path = .error (.PathTraversal path) ↔
      hasSubstr canonical ".." = true := by
  simp only [validate_image_path, h1, h2, h3, h4, if_false, if_neg]
  cases hc : hasSubstr canonical ".." with
  | true => simp
  | false =>
    simp only [Bool.false_eq_true, iff_false]
    cases hm : fs.isRegularFile canonical with
    | none => simp
    | some b => cases b <;> simp

theorem claim_C5_witness :
    (validate_image_path fsCanonEx dotdotPath = .error (.PathTraversal dotdotPath) ↔
      hasSubstr dotdotPath ".." = true) :=
  claim_C5 fsCanonEx dotdotPath dotdotPath (by decide) (by decide) (by decide) rfl

/-- C6 counterexample: the synchronous send path does not establish its
connection under the 5-second connection timeout — the blocking connect has
no timeout configured (the 5-second constant is applied to the write phase
instead). -/
theorem claim_C6_counterexample :
    ¬ send_request_timeouts.connectTimeoutSecs = some CONNECTION_TIMEOUT := by
  decide

/-- C6 (amended): the synchronous `send_request` connects with a plain
blocking connect (no timeout bound), then applies the 30-second read timeout
to the response phase and the 5-second `CONNECTION_TIMEOUT` constant as the
write timeout; every connect failure, encode failure or transport failure is
surfaced to the caller, and a successful exchange decodes exactly one
response. -/
theorem claim_C6 :
    send_request_timeouts =
      { connectTimeoutSecs := none, readTimeoutSecs := some READ_TIMEOUT,
        writeTimeoutSecs := some CONNECTION_TIMEOUT } ∧
    (∀ (e : ProtocolError) (transport : List Char → Except ProtocolError JsonObj)
      (r : DaemonRequest),
      DaemonClient.send_request (.error e) transport r = .error e) ∧
    (∀ (transport : List Char → Except ProtocolError JsonObj) (r : DaemonRequest)
      (e : ProtocolError), r.to_bytes = .error e →
      DaemonClient.send_request (.ok ()) transport r = .error e) ∧
    (∀ (transport : List Char → Except ProtocolError JsonObj) (r : DaemonRequest)
      (data : List Char) (e : ProtocolError),
      r.to_bytes = .ok data → transport data = .error e →
      DaemonClient.send_request (.ok ()) transport r = .error e) ∧
    (∀ (transport : List Char → Except ProtocolError JsonObj) (r : DaemonRequest)
      (data : List Char) (body : JsonObj),
      r.to_bytes = .ok data → transport data = .ok body →
      DaemonClient.send_request (.ok ()) transport r =
        DaemonResponse.from_bytes body) := by
  refine ⟨rfl, fun e transport r => rfl, ?_, ?_, ?_⟩
  · intro transport r e he
    simp only [DaemonClient.send_request, exceptBind_ok, he, exceptBind_err]
  · intro transport r data e hd he
    simp only [DaemonClient.send_request, exceptBind_ok, hd, he, exceptBind_err]
  · intro transport r data body hd hb
    simp only [DaemonClient.send_request, exceptBind_ok, hd, hb]

theorem claim_C6_witness :
    DaemonClient.send_request (.ok ()) transpErr (DaemonRequest.new "/tmp/x.png") =
      .error .ConnectionClosed :=
  claim_C6.2.2.2.1 transpErr (DaemonRequest.new "/tmp/x.png")
    (renderObj (DaemonRequest.toJson (DaemonRequest.new "/tmp/x.png")))
    .ConnectionClosed rfl rfl

/-- C8 counterexample: a request whose `initial_tool` is present but names
no known tool does not override the global default — the derived
configuration follows the global default, so two different globals yield two
different results for the same request, refuting "a present request field
always overrides the global default" for `initial_tool`. -/
theorem claim_C8_counterexample :
    reqToolInvalid.initial_tool.isSome = true ∧
    (RequestConfig.from_request gConfA reqToolInvalid).initial_tool =
      gConfA.initial_tool ∧
    (RequestConfig.from_request gConfB reqToolInvalid).initial_tool =
      gConfB.initial_tool ∧
    ¬ (RequestConfig.from_request gConfA reqToolInvalid).initial_tool =
        (RequestConfig.from_request gConfB reqToolInvalid).initial_tool := by
  refine ⟨rfl, rfl, rfl, by decide⟩

/-- C8 (amended): the derived per-window configuration takes the request's
value for each present optional field and the global default for each absent
one, for `output_filename`, `copy_command`, `fullscreen`, `early_exit`,
`corner_roundness`, `annotation_size_factor`, `default_hide_toolbars` and
`no_window_decoration`; for `initial_tool` a present string overrides only
through `parse_tool` — it takes effect when it parses (case-insensitively)
to a known tool and otherwise falls back to the global default. -/
theorem claim_C8 (g : GlobalConfig) (r : DaemonRequest) :
    ((RequestConfig.from_request g r).input_filename = r.filename) ∧
    (∀ v, r.output_filename = some v →
      (RequestConfig.from_request g r).output_filename = some v) ∧
    (r.output_filename = none →
      (RequestConfig.from_request g r).output_filename = g.output_filename) ∧
    (∀ v, r.copy_command = some v →
      (RequestConfig.from_request g r).copy_command = some v) ∧
    (r.copy_command = none →
      (RequestConfig.from_request g r).copy_command = g.copy_command) ∧
    (∀ s, r.initial_tool = some s →
      (RequestConfig.from_request g r).initial_tool =
        (parse_tool s).getD g.initial_tool) ∧
    (r.initial_tool = none →
      (RequestConfig.from_request g r).initial_tool = g.initial_tool) ∧
    (∀ b, r.fullscreen = some b → (RequestConfig.from_request g r).fullscreen = b) ∧
    (r.fullscreen = none → (RequestConfig.from_request g r).fullscreen = g.fullscreen) ∧
    (∀ b, r.early_exit = some b → (RequestConfig.from_request g r).early_exit = b) ∧
    (r.early_exit = none → (RequestConfig.from_request g r).early_exit = g.early_exit) ∧
    (∀ x, r.corner_roundness = some x →
      (RequestConfig.from_request g r).corner_roundness = x) ∧
    (r.corner_roundness = none →
      (RequestConfig.from_request g r).corner_roundness = g.corner_roundness) ∧
    (∀ x, r.size_factor = some x →
      (RequestConfig.from_request g r).size_factor = x) ∧
    (r.size_factor = none →
      (RequestConfig.from_request g r).size_factor = g.size_factor) ∧
    (∀ b, r.default_hide_toolbars = some b →
      (RequestConfig.from_request g r).default_hide_toolbars = b) ∧
    (r.default_hide_toolbars = none →
      (RequestConfig.from_request g r).default_hide_toolbars =
        g.default_hide_toolbars) ∧
    (∀ b, r.no_window_decoration = some b →
      (RequestConfig.from_request g r).no_window_decoration = b) ∧
    (r.no_window_decoration = none →
      (RequestConfig.from_request g r).no_window_decoration =
        g.no_window_decoration) := by
  refine ⟨rfl, ?_, ?_, ?_, ?_, ?_, ?_, ?_, ?_, ?_, ?_, ?_, ?_, ?_, ?_, ?_, ?_, ?_, ?_⟩ <;>
    first
      | (intro v hv; simp [RequestConfig.from_request, hv])
      | (intro hv; simp [RequestConfig.from_request, hv])

theorem claim_C8_witness :
    (RequestConfig.from_request gConfA reqOverrides).output_filename =
      some "/tmp/o.png" ∧
    (RequestConfig.from_request gConfA reqOverrides).initial_tool =
      (parse_tool "ARROW").getD gConfA.initial_tool ∧
    (RequestConfig.from_request gConfA reqOverrides).fullscreen = true ∧
    (RequestConfig.from_request gConfA reqOverrides).copy_command =
      gConfA.copy_command :=
  ⟨(claim_C8 gConfA reqOverrides).2.1 "/tmp/o.png" rfl,
   (claim_C8 gConfA reqOverrides).2.2.2.2.2.1 "ARROW" rfl,
   (claim_C8 gConfA reqOverrides).2.2.2.2.2.2.2.1 true rfl,
   (claim_C8 gConfA reqOverrides).2.2.2.2.1 rfl⟩

end Satty
